import Mathlib

/-!
Shallow embedding of the TAPP Club backend (`src/backend/main.py`): the
relational state is a record of row lists, user / event / group identifiers
are natural numbers (uuids are opaque totally ordered values; only `<`,
`min`, `max` and equality are used by the code), and each HTTP endpoint
becomes a function from the database state and its request parameters to a
response (`Except ApiError _`) paired with the resulting database state.
Single-statement endpoints commit their writes even when the handler later
raises; transactional endpoints roll back on error.
-/

deriving instance DecidableEq for Except

namespace Tapp

/-- HTTP-level error taxonomy used by the endpoints of `main.py`
(`HTTPException(status_code=...)`). -/
inductive ApiError where
  | invalidArgument   -- 400
  | forbidden         -- 403
  | notFound          -- 404
  | conflict          -- 409
  | internal          -- 500 (unhandled exception / unclassified error)
  deriving DecidableEq, Repr

/-- Friendship lifecycle status, the `status` column of `friendships`. -/
inductive FriendStatus where
  | pending
  | accepted
  | declined
  deriving DecidableEq, Repr

/-- Action body of PATCH /friend-requests (`FriendRequestAction` enum in
`main.py`: only "accepted" or "declined" can be submitted). -/
inductive FriendAction where
  | accept
  | decline
  deriving DecidableEq, Repr

def FriendAction.toStatus : FriendAction → FriendStatus
  | .accept => .accepted
  | .decline => .declined

/-- Row of the `users` table (columns relevant to the modelled endpoints). -/
structure UserRow where
  user_id : Nat
  username : String
  deriving DecidableEq, Repr

/-- Row of the `friendships` table: canonical pair columns, status,
`action_user_id` (who last acted), `updated_at` timestamp. -/
structure FriendshipRow where
  user_one_id : Nat
  user_two_id : Nat
  status : FriendStatus
  action_user_id : Nat
  updated_at : Nat
  deriving DecidableEq, Repr

/-- Row of the `events` table. -/
structure EventRow where
  event_id : Nat
  name : String
  description : String
  location : String
  dateTime : Nat
  deriving DecidableEq, Repr

/-- Row of the `"eventMembers"` table: unique (event_id, user_id) pair
carrying the `tapped` flag (defaults to false on insert). -/
structure EventMemberRow where
  event_id : Nat
  user_id : Nat
  tapped : Bool
  deriving DecidableEq, Repr

/-- Row of the `event_pictures` table. -/
structure EventPictureRow where
  event_id : Nat
  picture_url : String
  display_order : Nat
  uploaded_at : Nat
  deriving DecidableEq, Repr

/-- Row of the `groups` table. -/
structure GroupRow where
  group_id : Nat
  name : String
  deriving DecidableEq, Repr

/-- Row of the `"groupMembers"` table: unique (group_id, user_id) pair. -/
structure GroupMemberRow where
  group_id : Nat
  user_id : Nat
  deriving DecidableEq, Repr

/-- Row of the `conversations` table. -/
structure ConversationRow where
  group_id : Nat
  user_id : Nat
  messageType : String
  messageContent : String
  dateTime : Nat
  deriving DecidableEq, Repr

/-- The relational store: one list of rows per table touched by the
modelled endpoints. -/
structure DB where
  users : List UserRow
  friendships : List FriendshipRow
  events : List EventRow
  eventMembers : List EventMemberRow
  eventPictures : List EventPictureRow
  groups : List GroupRow
  groupMembers : List GroupMemberRow
  conversations : List ConversationRow
  deriving DecidableEq, Repr

def userExists (db : DB) (uid : Nat) : Bool :=
  db.users.any fun u => u.user_id = uid

def eventExists (db : DB) (eid : Nat) : Bool :=
  db.events.any fun e => e.event_id = eid

def groupExists (db : DB) (gid : Nat) : Bool :=
  db.groups.any fun g => g.group_id = gid

/-- Whether the second character list starts with the first one. -/
def leadsWith : List Char → List Char → Bool
  | [], _ => true
  | _ :: _, [] => false
  | c :: cs, d :: ds => c = d && leadsWith cs ds

/-- Whether the first character list occurs contiguously in the second. -/
def occursWithin (needle : List Char) : List Char → Bool
  | [] => leadsWith needle []
  | c :: cs => leadsWith needle (c :: cs) || occursWithin needle cs

/-- Substring test, modelling Python's `needle in haystack` on strings. -/
def strContains (haystack needle : String) : Bool :=
  occursWithin needle.data haystack.data

/-- asyncpg `Connection.execute` returns the command tag of an INSERT as
`"INSERT 0 <rows>"` (the middle 0 is the oid). -/
def insertCommandTag (rows : Nat) : String :=
  "INSERT 0 " ++ toString rows

/-- POST /friend-requests (`send_friend_request`, main.py:691-731).
Rejects self-requests with 400, canonicalises the pair as (min, max) and
runs `INSERT ... ON CONFLICT (user_one_id, user_two_id) DO NOTHING`
(committed immediately: the handler opens no transaction); a missing user
surfaces as a foreign-key violation mapped to 404.  The handler then raises
409 whenever the command tag contains the substring `"INSERT 0"`. -/
def send_friend_request (db : DB) (requester_id addressee_id now : Nat) :
    Except ApiError Unit × DB :=
  if requester_id = addressee_id then (.error .invalidArgument, db)
  else
    let user_one_id := min requester_id addressee_id
    let user_two_id := max requester_id addressee_id
    if ¬ (userExists db requester_id ∧ userExists db addressee_id) then
      (.error .notFound, db)
    else
      let conflict := db.friendships.any fun r =>
        r.user_one_id = user_one_id ∧ r.user_two_id = user_two_id
      let inserted : Nat := if conflict then 0 else 1
      let db1 : DB :=
        if conflict then db
        else { db with friendships := db.friendships ++
          [⟨user_one_id, user_two_id, .pending, requester_id, now⟩] }
      if strContains (insertCommandTag inserted) "INSERT 0" then
        (.error .conflict, db1)
      else
        (.ok (), db1)

/-- The WHERE clause of the UPDATE in `update_friend_request`: canonical
pair matches, status is still pending, and `action_user_id` is the
original requester. -/
def respondMatches (u1 u2 requester : Nat) (r : FriendshipRow) : Bool :=
  r.user_one_id = u1 ∧ r.user_two_id = u2 ∧
    r.status = .pending ∧ r.action_user_id = requester

/-- The SET clause of the UPDATE in `update_friend_request`. -/
def respondSet (action : FriendAction) (responder now : Nat)
    (r : FriendshipRow) : FriendshipRow :=
  { r with status := action.toStatus, action_user_id := responder,
           updated_at := now }

/-- PATCH /friend-requests/{requester_id} (`update_friend_request`,
main.py:736-785).  Canonicalises the pair of requester and responder and
runs a conditional UPDATE; `fetchval` of the RETURNING clause is nil
exactly when zero rows matched, which the handler maps to 404. -/
def update_friend_request (db : DB) (requester_id responder_id : Nat)
    (action : FriendAction) (now : Nat) : Except ApiError Unit × DB :=
  let user_one_id := min requester_id responder_id
  let user_two_id := max requester_id responder_id
  if db.friendships.any (respondMatches user_one_id user_two_id requester_id) then
    (.ok (), { db with friendships := db.friendships.map (fun r =>
      if respondMatches user_one_id user_two_id requester_id r then
        respondSet action responder_id now r
      else r) })
  else
    (.error .notFound, db)

/-- The membership filter used by both queries of `tap_user_at_event`:
`event_id = $1 AND user_id = ANY($2::uuid[])` with `$2 = [tapper, tapped]`. -/
def tapRowMatches (event_id tapper_id tapped_id : Nat) (r : EventMemberRow) : Bool :=
  r.event_id = event_id ∧ (r.user_id = tapper_id ∨ r.user_id = tapped_id)

/-- The row transformation of the UPDATE in `tap_user_at_event`:
`SET tapped = TRUE` on the rows selected by `tapRowMatches`. -/
def tapSet (event_id tapper_id tapped_id : Nat) (r : EventMemberRow) :
    EventMemberRow :=
  if tapRowMatches event_id tapper_id tapped_id r then { r with tapped := true }
  else r

/-- POST /events/{event_id}/tap (`tap_user_at_event`, main.py:1528-1586).
Self-taps are rejected with 400 before the transaction; inside one
transaction the handler counts the membership rows of the two participants
and rejects with 403 unless exactly 2 are found, then sets `tapped = TRUE`
on both rows.  An error raised inside the transaction rolls it back, so the
failure branches leave the store unchanged. -/
def tap_user_at_event (db : DB) (event_id tapper_id tapped_id : Nat) :
    Except ApiError Unit × DB :=
  if tapper_id = tapped_id then (.error .invalidArgument, db)
  else
    let member_count :=
      (db.eventMembers.filter (tapRowMatches event_id tapper_id tapped_id)).length
    if member_count ≠ 2 then (.error .forbidden, db)
    else
      (.ok (), { db with eventMembers :=
        db.eventMembers.map (tapSet event_id tapper_id tapped_id) })

def isEventMember (db : DB) (event_id user_id : Nat) : Bool :=
  db.eventMembers.any fun r => r.event_id = event_id ∧ r.user_id = user_id

def isGroupMember (db : DB) (group_id user_id : Nat) : Bool :=
  db.groupMembers.any fun r => r.group_id = group_id ∧ r.user_id = user_id

/-- POST /events/{event_id}/members (`add_members_to_event`,
main.py:1477-1522).  Empty input is rejected with 400; the input ids are
de-duplicated (Python `set`), then inserted in one
`INSERT ... ON CONFLICT (event_id, user_id) DO NOTHING` statement; a
missing event or user is a foreign-key violation that fails the whole
statement (404, nothing inserted).  The response's `added_count` is parsed
from the command tag, i.e. the number of rows actually inserted. -/
def add_members_to_event (db : DB) (event_id : Nat) (user_ids : List Nat) :
    Except ApiError Nat × DB :=
  if user_ids = [] then (.error .invalidArgument, db)
  else
    let unique_member_ids := user_ids.dedup
    if ¬ (eventExists db event_id ∧ ∀ u ∈ unique_member_ids, userExists db u) then
      (.error .notFound, db)
    else
      let newRows := (unique_member_ids.filter
          (fun u => ¬ isEventMember db event_id u)).map
        (fun u => EventMemberRow.mk event_id u false)
      (.ok newRows.length, { db with eventMembers := db.eventMembers ++ newRows })

/-- POST /groups/{group_id}/members (`add_members_to_group`,
main.py:1296-1350).  Same shape as `add_members_to_event`, over the
`"groupMembers"` table. -/
def add_members_to_group (db : DB) (group_id : Nat) (user_ids : List Nat) :
    Except ApiError Nat × DB :=
  if user_ids = [] then (.error .invalidArgument, db)
  else
    let unique_member_ids := user_ids.dedup
    if ¬ (groupExists db group_id ∧ ∀ u ∈ unique_member_ids, userExists db u) then
      (.error .notFound, db)
    else
      let newRows := (unique_member_ids.filter
          (fun u => ¬ isGroupMember db group_id u)).map
        (fun u => GroupMemberRow.mk group_id u)
      (.ok newRows.length, { db with groupMembers := db.groupMembers ++ newRows })

/-- POST /groups (`create_group_with_members`, main.py:1240-1292).
One transaction: insert the group row (the store assigns the fresh id
`new_group_id`, passed here as a parameter), build the member set
`set(initial_member_ids) ∪ {creator_id}` and bulk-insert it; any
foreign-key violation (a listed user that does not exist) rolls the whole
transaction back and maps to 404, so on failure neither the group nor any
membership row exists. -/
def create_group_with_members (db : DB) (creator_id : Nat) (name : String)
    (initial_member_ids : List Nat) (new_group_id : Nat) :
    Except ApiError Nat × DB :=
  let unique_member_ids := (initial_member_ids ++ [creator_id]).dedup
  if ¬ (∀ u ∈ unique_member_ids, userExists db u) then
    (.error .notFound, db)
  else
    (.ok new_group_id,
      { db with
        groups := db.groups ++ [⟨new_group_id, name⟩],
        groupMembers := db.groupMembers ++
          unique_member_ids.map (fun u => GroupMemberRow.mk new_group_id u) })

/-- Insertion step of a descending sort by a `Nat` key (models SQL
`ORDER BY key DESC`). -/
def insertDescBy (key : α → Nat) (a : α) : List α → List α
  | [] => [a]
  | x :: xs =>
      if key x ≤ key a then a :: x :: xs else x :: insertDescBy key a xs

/-- Descending insertion sort by a `Nat` key. -/
def sortDescBy (key : α → Nat) (l : List α) : List α :=
  l.foldr (insertDescBy key) []

/-- A message row joined with the poster's username, the response shape of
the conversation endpoints (`ChatMessage` in main.py). -/
structure ChatMessage where
  poster_id : Nat
  poster_name : String
  messageType : String
  messageContent : String
  dateTime : Nat
  deriving DecidableEq, Repr

def lookupUser (db : DB) (uid : Nat) : Option UserRow :=
  db.users.find? fun u => u.user_id = uid

/-- The SELECT of `get_group_conversation` before its LIMIT: the group's
conversation rows inner-joined with `users` for the poster name (a row
whose poster is absent is dropped by the join), ordered by
`"dateTime" DESC`. -/
def joinedGroupMessages (db : DB) (group_id : Nat) : List ChatMessage :=
  (sortDescBy (fun c => c.dateTime)
      (db.conversations.filter (fun c => c.group_id = group_id))).filterMap
    (fun c => (lookupUser db c.user_id).map (fun u =>
      ChatMessage.mk c.user_id u.username c.messageType c.messageContent
        c.dateTime))

/-- GET /groups/{group_id}/conversations (`get_group_conversation`,
main.py:559-601).  A single SELECT: messages of the group inner-joined with
`users` for the poster name, ordered by `"dateTime" DESC`, `LIMIT 20`.
The handler performs no existence check on the group. -/
def get_group_conversation (db : DB) (group_id : Nat) :
    Except ApiError (List ChatMessage) :=
  .ok ((joinedGroupMessages db group_id).take 20)

/-- POST /groups/{group_id}/conversations (`send_group_message`,
main.py:603-656).  Inserts one row with a server-assigned timestamp; a
dangling group or user reference is a foreign-key violation mapped to 404.
No group-membership check is performed.  The response is the stored row
enriched with the poster's username ("Unknown User" if the user row is
somehow gone). -/
def send_group_message (db : DB) (group_id user_id : Nat)
    (messageType messageContent : String) (now : Nat) :
    Except ApiError ChatMessage × DB :=
  if ¬ (groupExists db group_id ∧ userExists db user_id) then
    (.error .notFound, db)
  else
    let poster_name :=
      match lookupUser db user_id with
      | some u => u.username
      | none => "Unknown User"
    (.ok (ChatMessage.mk user_id poster_name messageType messageContent now),
      { db with conversations := db.conversations ++
        [⟨group_id, user_id, messageType, messageContent, now⟩] })

/-- Response model `EventPreview` (main.py:256-264): `location : str` is a
required field with no default. -/
structure EventPreview where
  event_id : Nat
  name : String
  description : String
  location : String
  dateTime : Nat
  first_picture_url : Option String
  deriving DecidableEq, Repr

/-- Field values passed to the `EventPreview` constructor by
`get_user_profile` (main.py:877-886); the handler supplies no `location`
(its SELECT never reads that column), modelled as an `Option` that is
`none` there. -/
structure EventPreviewFields where
  event_id : Nat
  name : String
  description : String
  location : Option String
  dateTime : Nat
  first_picture_url : Option String

/-- Pydantic validation of an `EventPreview` construction: a missing
required field (`location`) raises a `ValidationError`, modelled as
`none`. -/
def validateEventPreview (f : EventPreviewFields) : Option EventPreview :=
  match f.location with
  | some loc =>
      some ⟨f.event_id, f.name, f.description, loc, f.dateTime,
        f.first_picture_url⟩
  | none => none

/-- Response model `UserProfile` (main.py:266-273), identifying fields. -/
structure UserProfile where
  user_id : Nat
  username : String
  friend_count : Nat
  event_count : Nat
  latest_events : List EventPreview
  deriving DecidableEq, Repr

/-- Sort order of the `first_pictures` CTE of `get_user_profile`:
`display_order ASC, uploaded_at ASC`. -/
def picBefore (p q : EventPictureRow) : Bool :=
  p.display_order < q.display_order ∨
    (p.display_order = q.display_order ∧ p.uploaded_at ≤ q.uploaded_at)

/-- `DISTINCT ON (event_id) ... ORDER BY event_id, display_order ASC,
uploaded_at ASC`: the first picture of an event, i.e. a minimal row of
that event's pictures under `picBefore` (ties beyond `uploaded_at` are
resolved arbitrarily by the store). -/
def first_picture_url (db : DB) (event_id : Nat) : Option String :=
  match db.eventPictures.filter (fun p => p.event_id = event_id) with
  | [] => none
  | p :: ps =>
      some ((ps.foldl (fun best q => if picBefore q best then q else best)
        p).picture_url)

/-- GET /users/{user_id}/profile (`get_user_profile`, main.py:814-902).
404 when the user row is absent; otherwise: accepted-friend count, total
event-membership count, and the 12 most recent events the user belongs to
(`ORDER BY e."dateTime" DESC LIMIT 12`, joined with `"eventMembers"`;
the (event_id, user_id) pair is unique, so the join keeps each event of
the user once), each left-joined with its first picture.  Each returned
event row is fed to the `EventPreview` constructor WITHOUT the required
`location` field; the resulting `ValidationError` is not caught by the
handler (its except clause only catches `asyncpg.PostgresError`) and
surfaces as HTTP 500. -/
def get_user_profile (db : DB) (user_id : Nat) : Except ApiError UserProfile :=
  match lookupUser db user_id with
  | none => .error .notFound
  | some u =>
    let friend_count := (db.friendships.filter (fun r =>
      (r.user_one_id = user_id ∨ r.user_two_id = user_id) ∧
        r.status = .accepted)).length
    let event_count := (db.eventMembers.filter
      (fun r => r.user_id = user_id)).length
    let latest_rows := (sortDescBy (fun e => e.dateTime)
      (db.events.filter (fun e => isEventMember db e.event_id user_id))).take 12
    match latest_rows.mapM (fun e => validateEventPreview
        ⟨e.event_id, e.name, e.description, none, e.dateTime,
          first_picture_url db e.event_id⟩) with
    | some evs => .ok ⟨user_id, u.username, friend_count, event_count, evs⟩
    | none => .error .internal

/-- The invariant of claim C5: every friendship row stores its pair in
canonical order (smaller identity first), and no two rows of the relation
carry the same canonical pair (hence at most one row per unordered pair). -/
def FriendshipCanonical (db : DB) : Prop :=
  (∀ r ∈ db.friendships, r.user_one_id < r.user_two_id) ∧
  db.friendships.Pairwise (fun r s =>
    ¬ (r.user_one_id = s.user_one_id ∧ r.user_two_id = s.user_two_id))

/-- One friendship-mutating operation of the API, with arbitrary request
parameters: POST /friend-requests or PATCH /friend-requests/{id}.  (No
other endpoint writes to the `friendships` table.) -/
inductive FriendshipStep : DB → DB → Prop where
  | send (db : DB) (requester addressee now : Nat) :
      FriendshipStep db (send_friend_request db requester addressee now).2
  | respond (db : DB) (requester responder : Nat) (act : FriendAction)
      (now : Nat) :
      FriendshipStep db (update_friend_request db requester responder act now).2

/-- Reflexive-transitive closure of `FriendshipStep`: the states reachable
from a given state through friendship operations. -/
inductive FriendshipReachable : DB → DB → Prop where
  | refl (db : DB) : FriendshipReachable db db
  | step {db db1 db2 : DB} : FriendshipReachable db db1 →
      FriendshipStep db1 db2 → FriendshipReachable db db2

/-- A store with two users and nothing else, used to evaluate the
friendship endpoints on concrete input. -/
def dbTwoUsers : DB :=
  { users := [⟨1, "ann"⟩, ⟨2, "bo"⟩],
    friendships := [], events := [], eventMembers := [], eventPictures := [],
    groups := [], groupMembers := [], conversations := [] }

/-- A store with one event whose two members are untapped, used to
evaluate the tap endpoint on concrete input. -/
def dbTapReady : DB :=
  { users := [⟨1, "ann"⟩, ⟨2, "bo"⟩],
    friendships := [],
    events := [⟨5, "picnic", "d", "park", 40⟩],
    eventMembers := [⟨5, 1, false⟩, ⟨5, 2, false⟩],
    eventPictures := [], groups := [], groupMembers := [], conversations := [] }

/-- A store with two users, two groups and four messages — three in group 7
(timestamps 10, 30, 20) and one in group 8 — used to evaluate the
conversation read endpoint on concrete, non-empty input. -/
def dbChat : DB :=
  { users := [⟨1, "ann"⟩, ⟨2, "bo"⟩],
    friendships := [], events := [], eventMembers := [], eventPictures := [],
    groups := [⟨7, "chat"⟩, ⟨8, "other"⟩],
    groupMembers := [],
    conversations := [⟨7, 1, "text", "m1", 10⟩, ⟨7, 2, "text", "m2", 30⟩,
      ⟨7, 1, "text", "m3", 20⟩, ⟨8, 1, "text", "x", 99⟩] }

/-- A store with one pending friend request from user 1 to user 2. -/
def dbPendingRequest : DB :=
  { users := [⟨1, "ann"⟩, ⟨2, "bo"⟩],
    friendships := [⟨1, 2, .pending, 1, 3⟩],
    events := [], eventMembers := [], eventPictures := [],
    groups := [], groupMembers := [], conversations := [] }

/-- A store with three users, one event and one group (user 1 being the
only event member and the group having no members), used to evaluate the
membership and conversation endpoints on concrete input. -/
def dbContainers : DB :=
  { users := [⟨1, "ann"⟩, ⟨2, "bo"⟩, ⟨3, "cy"⟩],
    friendships := [],
    events := [⟨5, "picnic", "d", "park", 40⟩],
    eventMembers := [⟨5, 1, false⟩],
    eventPictures := [],
    groups := [⟨7, "chat"⟩],
    groupMembers := [],
    conversations := [] }

/-- Claim C1 (refuted by the code, which contradicts its own docstring and
success message): on a fresh pair of distinct users the handler inserts the
pending row but still answers 409, because the success command tag
`"INSERT 0 1"` also contains the substring `"INSERT 0"` that the handler
treats as a conflict; the row is committed despite the 409 response (no
transaction is opened).  A second request, in the opposite direction,
also answers 409 and leaves the store unchanged. -/
theorem claim1_first_request_already_conflicts :
    send_friend_request dbTwoUsers 1 2 3 = (.error .conflict, dbPendingRequest) ∧
    send_friend_request dbPendingRequest 2 1 9 =
      (.error .conflict, dbPendingRequest) := by
  decide

/-- Claim C2: tap fails with InvalidArgument (400) on a self-tap, and with
Forbidden (403) when the number of event-membership rows matching the two
participants is not exactly 2; in both failure cases the store — in
particular every membership row's `tapped` flag — is unchanged. -/
theorem claim2_tap_failure_cases (db : DB) (e a b : Nat) :
    (a = b → tap_user_at_event db e a b = (.error .invalidArgument, db)) ∧
    (a ≠ b →
      (db.eventMembers.filter (tapRowMatches e a b)).length ≠ 2 →
      tap_user_at_event db e a b = (.error .forbidden, db)) := by
  constructor
  · intro hab
    simp [tap_user_at_event, hab]
  · intro hab hcount
    simp [tap_user_at_event, hab, hcount]

/-- Witness for claim C2: user 1 self-tapping is rejected with 400, and
tapping user 2 (not an event member: only user 1 is) is rejected with 403,
both leaving the store unchanged. -/
theorem claim2_tap_failure_cases_witness :
    tap_user_at_event dbContainers 5 1 1 = (.error .invalidArgument, dbContainers) ∧
    tap_user_at_event dbContainers 5 1 2 = (.error .forbidden, dbContainers) :=
  ⟨(claim2_tap_failure_cases dbContainers 5 1 1).1 rfl,
   (claim2_tap_failure_cases dbContainers 5 1 2).2 (by decide) (by decide)⟩

theorem tapRowMatches_symm (e a b : Nat) (r : EventMemberRow) :
    tapRowMatches e b a r = tapRowMatches e a b r := by
  simp [tapRowMatches, or_comm]

theorem tapRowMatches_tapSet (e a b e2 x y : Nat) (r : EventMemberRow) :
    tapRowMatches e2 x y (tapSet e a b r) = tapRowMatches e2 x y r := by
  unfold tapSet
  split <;> rfl

theorem tapSet_symm (e a b : Nat) (r : EventMemberRow) :
    tapSet e b a r = tapSet e a b r := by
  unfold tapSet
  rw [tapRowMatches_symm]

theorem tapSet_idem (e a b : Nat) (r : EventMemberRow) :
    tapSet e a b (tapSet e a b r) = tapSet e a b r := by
  unfold tapSet
  by_cases h : tapRowMatches e a b r
  · simp [h]
  · simp [h]

theorem tapped_after_tapSet (e a b : Nat) (r : EventMemberRow)
    (h : tapRowMatches e a b r = true) : (tapSet e a b r).tapped = true := by
  simp [tapSet, h]

theorem filter_length_map_tapSet (e a b e2 x y : Nat)
    (l : List EventMemberRow) :
    ((l.map (tapSet e a b)).filter (tapRowMatches e2 x y)).length =
      (l.filter (tapRowMatches e2 x y)).length := by
  induction l with
  | nil => rfl
  | cons r t ih =>
    simp only [List.map_cons, List.filter_cons, tapRowMatches_tapSet]
    split <;> simp [ih]

theorem map_tapSet_idem (e a b : Nat) (l : List EventMemberRow) :
    (l.map (tapSet e a b)).map (tapSet e a b) = l.map (tapSet e a b) := by
  induction l with
  | nil => rfl
  | cons r t ih => simp [tapSet_idem, ih]

/-- Claim C3: when both participants are members (the membership count for
the pair is exactly 2), tap succeeds and sets `tapped = true` on both
participants' membership rows; tapping again in the opposite direction,
and then again in the original direction, are no-op successes that leave
the state of the first tap unchanged. -/
theorem claim3_tap_mutual_idempotent_commutative (db : DB) (e a b : Nat)
    (hab : a ≠ b)
    (hcount : (db.eventMembers.filter (tapRowMatches e a b)).length = 2) :
    (tap_user_at_event db e a b).1 = .ok () ∧
    (∀ r ∈ (tap_user_at_event db e a b).2.eventMembers,
      tapRowMatches e a b r = true → r.tapped = true) ∧
    tap_user_at_event (tap_user_at_event db e a b).2 e b a =
      (.ok (), (tap_user_at_event db e a b).2) ∧
    tap_user_at_event (tap_user_at_event db e a b).2 e a b =
      (.ok (), (tap_user_at_event db e a b).2) := by
  have hstep : tap_user_at_event db e a b =
      (.ok (), { db with eventMembers := db.eventMembers.map (tapSet e a b) }) := by
    simp [tap_user_at_event, hab, hcount]
  rw [hstep]
  have hsymmPred : tapRowMatches e b a = tapRowMatches e a b :=
    funext (tapRowMatches_symm e a b)
  have hsymmSet : tapSet e b a = tapSet e a b :=
    funext (tapSet_symm e a b)
  refine ⟨rfl, ?_, ?_, ?_⟩
  · intro r hr hmatch
    rcases List.mem_map.mp hr with ⟨r0, hr0, rfl⟩
    apply tapped_after_tapSet
    rwa [tapRowMatches_tapSet] at hmatch
  · have hcount2 : (((db.eventMembers.map (tapSet e a b)).filter
        (tapRowMatches e b a)).length) = 2 := by
      rw [hsymmPred, filter_length_map_tapSet]
      exact hcount
    simp [tap_user_at_event, Ne.symm hab, hcount2, hsymmSet, map_tapSet_idem,
      tapSet_idem]
  · have hcount2 : (((db.eventMembers.map (tapSet e a b)).filter
        (tapRowMatches e a b)).length) = 2 := by
      rw [filter_length_map_tapSet]
      exact hcount
    simp [tap_user_at_event, hab, hcount2, map_tapSet_idem, tapSet_idem]

/-- Witness for claim C3: at the concrete store where users 1 and 2 are the
untapped members of event 5, tap(5, 1, 2) succeeds, flags both rows, and
the reversed and repeated taps are no-op successes. -/
theorem claim3_tap_mutual_idempotent_commutative_witness :
    (tap_user_at_event dbTapReady 5 1 2).1 = .ok () ∧
    (∀ r ∈ (tap_user_at_event dbTapReady 5 1 2).2.eventMembers,
      tapRowMatches 5 1 2 r = true → r.tapped = true) ∧
    tap_user_at_event (tap_user_at_event dbTapReady 5 1 2).2 5 2 1 =
      (.ok (), (tap_user_at_event dbTapReady 5 1 2).2) ∧
    tap_user_at_event (tap_user_at_event dbTapReady 5 1 2).2 5 1 2 =
      (.ok (), (tap_user_at_event dbTapReady 5 1 2).2) :=
  claim3_tap_mutual_idempotent_commutative dbTapReady 5 1 2 (by decide) (by decide)

/-- Claim C4: respond updates a friendship row only where the canonical
pair matches, the status is still pending and `action_user_id` is the
original requester; zero matches (in particular a self-response, given
canonically ordered rows) yield 404 with the store unchanged; a successful
respond maps every matching row to status = action, action_user_id =
responder, refreshed update timestamp (pair unchanged); rows in status
accepted or declined are never modified. -/
theorem claim4_respond_guarded_update (db : DB)
    (requester responder now : Nat) (act : FriendAction) :
    ((∀ r ∈ db.friendships,
        respondMatches (min requester responder) (max requester responder)
          requester r = false) →
      update_friend_request db requester responder act now =
        (.error .notFound, db)) ∧
    ((∀ r ∈ db.friendships, r.user_one_id < r.user_two_id) →
      requester = responder →
      update_friend_request db requester responder act now =
        (.error .notFound, db)) ∧
    ((∃ r ∈ db.friendships,
        respondMatches (min requester responder) (max requester responder)
          requester r = true) →
      (update_friend_request db requester responder act now).1 = .ok () ∧
      (update_friend_request db requester responder act now).2.friendships =
        db.friendships.map (fun r =>
          if respondMatches (min requester responder) (max requester responder)
              requester r then respondSet act responder now r else r)) ∧
    (∀ r : FriendshipRow,
      (respondSet act responder now r).status = act.toStatus ∧
      (respondSet act responder now r).action_user_id = responder ∧
      (respondSet act responder now r).updated_at = now ∧
      (respondSet act responder now r).user_one_id = r.user_one_id ∧
      (respondSet act responder now r).user_two_id = r.user_two_id) ∧
    (∀ r ∈ db.friendships, r.status ≠ .pending →
      r ∈ (update_friend_request db requester responder act now).2.friendships) := by
  have h404 : (∀ r ∈ db.friendships,
      respondMatches (min requester responder) (max requester responder)
        requester r = false) →
      update_friend_request db requester responder act now =
        (.error .notFound, db) := by
    intro hall
    have hany : db.friendships.any
        (respondMatches (min requester responder) (max requester responder)
          requester) = false := by
      rw [List.any_eq_false]
      intro r hr
      simp [hall r hr]
    simp [update_friend_request, hany]
  refine ⟨h404, ?_, ?_, ?_, ?_⟩
  · intro hcanon heq
    apply h404
    intro r hr
    have hlt := hcanon r hr
    subst heq
    simp only [respondMatches, min_self, max_self, decide_eq_false_iff_not]
    rintro ⟨ha, hb, -, -⟩
    omega
  · intro hex
    have hany : db.friendships.any
        (respondMatches (min requester responder) (max requester responder)
          requester) = true := by
      rw [List.any_eq_true]
      rcases hex with ⟨r, hr, hpr⟩
      exact ⟨r, hr, hpr⟩
    constructor <;> simp [update_friend_request, hany]
  · intro r
    exact ⟨rfl, rfl, rfl, rfl, rfl⟩
  · intro r hr hstat
    have hm : respondMatches (min requester responder) (max requester responder)
        requester r = false := by
      simp only [respondMatches, decide_eq_false_iff_not]
      rintro ⟨-, -, hp, -⟩
      exact hstat hp
    by_cases hany : db.friendships.any
        (respondMatches (min requester responder) (max requester responder)
          requester) = true
    · have hres : update_friend_request db requester responder act now =
          (.ok (), { db with friendships := db.friendships.map (fun s =>
            if respondMatches (min requester responder) (max requester responder)
                requester s then respondSet act responder now s else s) }) := by
        simp [update_friend_request, hany]
      rw [hres]
      have hfix : (if respondMatches (min requester responder)
          (max requester responder) requester r then respondSet act responder now r
          else r) = r := by
        simp [hm]
      have hmem := List.mem_map_of_mem (fun s =>
        if respondMatches (min requester responder) (max requester responder)
            requester s then respondSet act responder now s else s) hr
      simpa [hfix] using hmem
    · have hres : update_friend_request db requester responder act now =
          (.error .notFound, db) := by
        simp only [Bool.not_eq_true] at hany
        simp [update_friend_request, hany]
      rw [hres]
      exact hr

/-- Witness for claim C4: with one pending request from user 1 to user 2,
user 2's accept succeeds and maps the row through the guarded update, and
a self-response by user 1 yields 404 with the store unchanged. -/
theorem claim4_respond_guarded_update_witness :
    ((update_friend_request dbPendingRequest 1 2 .accept 9).1 = .ok () ∧
      (update_friend_request dbPendingRequest 1 2 .accept 9).2.friendships =
        dbPendingRequest.friendships.map (fun r =>
          if respondMatches (min 1 2) (max 1 2) 1 r then respondSet .accept 2 9 r
          else r)) ∧
    update_friend_request dbPendingRequest 1 1 .accept 9 =
      (.error .notFound, dbPendingRequest) :=
  ⟨(claim4_respond_guarded_update dbPendingRequest 1 2 9 .accept).2.2.1
      (by decide),
   (claim4_respond_guarded_update dbPendingRequest 1 1 9 .accept).2.1
      (by decide) rfl⟩

theorem strContains_tag0 : strContains (insertCommandTag 0) "INSERT 0" = true := by
  decide

theorem strContains_tag1 : strContains (insertCommandTag 1) "INSERT 0" = true := by
  decide

theorem friendshipCanonical_send (db : DB) (a b now : Nat)
    (h : FriendshipCanonical db) :
    FriendshipCanonical (send_friend_request db a b now).2 := by
  by_cases hab : a = b
  · simpa [send_friend_request, hab] using h
  · by_cases hu : userExists db a = true ∧ userExists db b = true
    · by_cases hcex : ∃ x ∈ db.friendships,
          x.user_one_id = min a b ∧ x.user_two_id = max a b
      · simpa [send_friend_request, hab, hu, hcex, strContains_tag0] using h
      · have hres : (send_friend_request db a b now).2 =
            { db with friendships := db.friendships ++
              [⟨min a b, max a b, .pending, a, now⟩] } := by
          simp [send_friend_request, hab, hu, hcex, strContains_tag1]
        rw [hres]
        obtain ⟨h1, h2⟩ := h
        push_neg at hcex
        constructor
        · intro r hr
          rcases List.mem_append.mp hr with hin | hnew
          · exact h1 r hin
          · rcases List.mem_singleton.mp hnew with rfl
            exact min_lt_max.mpr hab
        · rw [List.pairwise_append]
          refine ⟨h2, List.pairwise_singleton _ _, ?_⟩
          intro r hr s hs
          rcases List.mem_singleton.mp hs with rfl
          intro hcontra
          exact hcex r hr hcontra.1 hcontra.2
    · simpa [send_friend_request, hab, hu] using h

theorem respondApply_user_one (u1 u2 q now : Nat) (act : FriendAction)
    (resp : Nat) (r : FriendshipRow) :
    (if respondMatches u1 u2 q r then respondSet act resp now r
      else r).user_one_id = r.user_one_id := by
  split <;> rfl

theorem respondApply_user_two (u1 u2 q now : Nat) (act : FriendAction)
    (resp : Nat) (r : FriendshipRow) :
    (if respondMatches u1 u2 q r then respondSet act resp now r
      else r).user_two_id = r.user_two_id := by
  split <;> rfl

theorem friendshipCanonical_respond (db : DB) (a b : Nat)
    (act : FriendAction) (now : Nat) (h : FriendshipCanonical db) :
    FriendshipCanonical (update_friend_request db a b act now).2 := by
  by_cases hany : db.friendships.any
      (respondMatches (min a b) (max a b) a) = true
  · have hres : (update_friend_request db a b act now).2 =
        { db with friendships := db.friendships.map (fun r =>
          if respondMatches (min a b) (max a b) a r then respondSet act b now r
          else r) } := by
      simp [update_friend_request, hany]
    rw [hres]
    obtain ⟨h1, h2⟩ := h
    constructor
    · intro r hr
      rcases List.mem_map.mp hr with ⟨r0, hr0, rfl⟩
      rw [respondApply_user_one, respondApply_user_two]
      exact h1 r0 hr0
    · refine List.Pairwise.map _ ?_ h2
      intro r s hrs
      rw [respondApply_user_one, respondApply_user_two,
        respondApply_user_one, respondApply_user_two]
      exact hrs
  · have hres : (update_friend_request db a b act now).2 = db := by
      simp only [Bool.not_eq_true] at hany
      simp [update_friend_request, hany]
    rwa [hres]

theorem friendshipCanonical_step {db db1 : DB} (h : FriendshipCanonical db)
    (hs : FriendshipStep db db1) : FriendshipCanonical db1 := by
  cases hs with
  | send a b n => exact friendshipCanonical_send db a b n h
  | respond a b act n => exact friendshipCanonical_respond db a b act n h

/-- Claim C5: starting from an empty friendship relation, every state
reachable through the friendship operations (sendRequest / respond with
arbitrary parameters) satisfies the canonical invariant — every row stores
its pair as (min, max) with the smaller identity first and no two rows
carry the same canonical pair. -/
theorem claim5_canonical_pair_invariant (db0 db1 : DB)
    (hinit : db0.friendships = [])
    (hreach : FriendshipReachable db0 db1) :
    FriendshipCanonical db1 := by
  have h0 : FriendshipCanonical db0 := by
    constructor <;> simp [hinit]
  induction hreach with
  | refl => exact h0
  | step hr hs ih => exact friendshipCanonical_step ih hs

/-- Witness for claim C5: the state obtained from the two-user store by one
concrete sendRequest is canonically ordered and duplicate-free. -/
theorem claim5_canonical_pair_invariant_witness :
    FriendshipCanonical (send_friend_request dbTwoUsers 1 2 3).2 :=
  claim5_canonical_pair_invariant dbTwoUsers
    (send_friend_request dbTwoUsers 1 2 3).2 rfl
    (.step (.refl dbTwoUsers) (.send dbTwoUsers 1 2 3))

/-- Claim C6: bulk member addition rejects an empty input list with 400
(for events and for groups); on success `added_count` is exactly the number
of rows actually inserted; re-adding an existing member succeeds with
`added_count = 0`, leaves the store unchanged, and the membership relation
keeps exactly one row for the pair. -/
theorem claim6_add_members_idempotent (db : DB) (e g u : Nat)
    (ids : List Nat) :
    add_members_to_event db e [] = (.error .invalidArgument, db) ∧
    add_members_to_group db g [] = (.error .invalidArgument, db) ∧
    (∀ k db1, add_members_to_event db e ids = (.ok k, db1) →
      db1.eventMembers.length = db.eventMembers.length + k) ∧
    (∀ k db1, add_members_to_group db g ids = (.ok k, db1) →
      db1.groupMembers.length = db.groupMembers.length + k) ∧
    (eventExists db e = true → userExists db u = true →
      isEventMember db e u = false →
      add_members_to_event db e [u] =
        (.ok 1, { db with eventMembers := db.eventMembers ++ [⟨e, u, false⟩] }) ∧
      add_members_to_event
          { db with eventMembers := db.eventMembers ++ [⟨e, u, false⟩] } e [u] =
        (.ok 0, { db with eventMembers := db.eventMembers ++ [⟨e, u, false⟩] }) ∧
      (({ db with eventMembers := db.eventMembers ++ [⟨e, u, false⟩] }
          : DB).eventMembers.filter
        (fun r => r.event_id = e ∧ r.user_id = u)).length = 1) := by
  refine ⟨rfl, rfl, ?_, ?_, ?_⟩
  · intro k db1 hk
    simp only [add_members_to_event] at hk
    split at hk
    · simp at hk
    · split at hk
      · simp at hk
      · simp only [Prod.mk.injEq, Except.ok.injEq] at hk
        obtain ⟨hk1, hk2⟩ := hk
        rw [← hk2, ← hk1]
        simp
  · intro k db1 hk
    simp only [add_members_to_group] at hk
    split at hk
    · simp at hk
    · split at hk
      · simp at hk
      · simp only [Prod.mk.injEq, Except.ok.injEq] at hk
        obtain ⟨hk1, hk2⟩ := hk
        rw [← hk2, ← hk1]
        simp
  · intro he hu hnm
    have hfilter : db.eventMembers.filter
        (fun r => r.event_id = e ∧ r.user_id = u) = [] := by
      rw [List.filter_eq_nil_iff]
      intro r hr
      simp only [isEventMember, List.any_eq_false] at hnm
      simpa using hnm r hr
    refine ⟨?_, ?_, ?_⟩
    · simp [add_members_to_event, he, hu, hnm]
    · have he2 : ∃ x ∈ db.events, x.event_id = e := by
        simpa [eventExists] using he
      have hu2 : ∃ x ∈ db.users, x.user_id = u := by
        simpa [userExists] using hu
      simp [add_members_to_event, isEventMember, eventExists, userExists,
        he2, hu2]
    · rw [List.filter_append, hfilter]
      simp

/-- Witness for claim C6: at the concrete store, the empty list is
rejected for event 5 and group 7; adding user 2 to event 5 inserts one
row, re-adding reports 0 inserted, and the pair keeps exactly one row. -/
theorem claim6_add_members_idempotent_witness :
    add_members_to_event dbContainers 5 [] = (.error .invalidArgument, dbContainers) ∧
    (add_members_to_event dbContainers 5 [2] =
        (.ok 1, { dbContainers with
          eventMembers := dbContainers.eventMembers ++ [⟨5, 2, false⟩] }) ∧
      add_members_to_event
          { dbContainers with
            eventMembers := dbContainers.eventMembers ++ [⟨5, 2, false⟩] } 5 [2] =
        (.ok 0, { dbContainers with
          eventMembers := dbContainers.eventMembers ++ [⟨5, 2, false⟩] }) ∧
      (({ dbContainers with
          eventMembers := dbContainers.eventMembers ++ [⟨5, 2, false⟩] }
          : DB).eventMembers.filter
        (fun r => r.event_id = 5 ∧ r.user_id = 2)).length = 1) :=
  ⟨(claim6_add_members_idempotent dbContainers 5 7 2 []).1,
   (claim6_add_members_idempotent dbContainers 5 7 2 []).2.2.2.2
     (by decide) (by decide) (by decide)⟩

/-- Claim C7: group creation with initial members is all-or-nothing — if
any listed user does not exist the whole transaction rolls back (404,
store unchanged: no group row, no membership row); on success the group
row exists and its member rows are exactly one per user of the set
memberIds ∪ {creatorId} (duplicates in the input, including a repeated
creator, are collapsed). -/
theorem claim7_create_group_all_or_nothing (db : DB) (creator gid : Nat)
    (name : String) (initial : List Nat) :
    ((¬ ∀ v ∈ (initial ++ [creator]).dedup, userExists db v = true) →
      create_group_with_members db creator name initial gid =
        (.error .notFound, db)) ∧
    ((∀ v ∈ initial, userExists db v = true) → userExists db creator = true →
      (∀ r ∈ db.groupMembers, r.group_id ≠ gid) →
      (create_group_with_members db creator name initial gid).1 = .ok gid ∧
      GroupRow.mk gid name ∈
        (create_group_with_members db creator name initial gid).2.groups ∧
      (∀ v, GroupMemberRow.mk gid v ∈
          (create_group_with_members db creator name initial gid).2.groupMembers ↔
        (v ∈ initial ∨ v = creator)) ∧
      ((create_group_with_members db creator name initial gid).2.groupMembers.filter
          (fun r => r.group_id = gid)).map (fun r => r.user_id) =
        (initial ++ [creator]).dedup ∧
      ((initial ++ [creator]).dedup).Nodup) := by
  constructor
  · intro hbad
    simp only [create_group_with_members]
    rw [if_pos]
    simpa using hbad
  · intro hin hcr hfresh
    have hall : ∀ v ∈ (initial ++ [creator]).dedup, userExists db v = true := by
      intro v hv
      rcases List.mem_append.mp (List.mem_dedup.mp hv) with h1 | h2
      · exact hin v h1
      · rcases List.mem_singleton.mp h2 with rfl
        exact hcr
    have hres : create_group_with_members db creator name initial gid =
        (.ok gid,
          { db with
            groups := db.groups ++ [⟨gid, name⟩],
            groupMembers := db.groupMembers ++
              ((initial ++ [creator]).dedup).map
                (fun v => GroupMemberRow.mk gid v) }) := by
      simp only [create_group_with_members]
      rw [if_neg]
      simp only [not_not]
      simpa using hall
    rw [hres]
    refine ⟨rfl, by simp, ?_, ?_, List.nodup_dedup _⟩
    · intro v
      constructor
      · intro hv
        rcases List.mem_append.mp hv with hold | hnew
        · exact absurd rfl (hfresh _ hold)
        · rcases List.mem_map.mp hnew with ⟨w, hw, hweq⟩
          have : w = v := congrArg GroupMemberRow.user_id hweq
          subst this
          simpa using List.mem_dedup.mp hw
      · intro hv
        apply List.mem_append.mpr
        right
        apply List.mem_map.mpr
        refine ⟨v, ?_, rfl⟩
        rw [List.mem_dedup, List.mem_append]
        rcases hv with h1 | h2
        · exact Or.inl h1
        · exact Or.inr (List.mem_singleton.mpr h2)
    · rw [List.filter_append]
      have hold : db.groupMembers.filter (fun r => r.group_id = gid) = [] := by
        rw [List.filter_eq_nil_iff]
        intro r hr
        simpa using hfresh r hr
      have hnew : (((initial ++ [creator]).dedup).map
          (fun v => GroupMemberRow.mk gid v)).filter
            (fun r => r.group_id = gid) =
          ((initial ++ [creator]).dedup).map (fun v => GroupMemberRow.mk gid v) := by
        rw [List.filter_eq_self]
        intro r hr
        rcases List.mem_map.mp hr with ⟨w, hw, rfl⟩
        simp
      have hid : ((fun r : GroupMemberRow => r.user_id) ∘
          fun v => GroupMemberRow.mk gid v) = id := rfl
      rw [hold, hnew, List.nil_append, List.map_map, hid, List.map_id]

/-- Witness for claim C7: creating a group for creator 1 with initial list
[2, 3, 1] (the creator duplicated in the input) in the three-user store
succeeds and yields exactly the member rows for users 2, 3 and 1. -/
theorem claim7_create_group_all_or_nothing_witness :
    (create_group_with_members dbContainers 1 "trip" [2, 3, 1] 9).1 = .ok 9 ∧
    GroupRow.mk 9 "trip" ∈
      (create_group_with_members dbContainers 1 "trip" [2, 3, 1] 9).2.groups ∧
    (∀ v, GroupMemberRow.mk 9 v ∈
        (create_group_with_members dbContainers 1 "trip" [2, 3, 1] 9).2.groupMembers ↔
      (v ∈ [2, 3, 1] ∨ v = 1)) ∧
    ((create_group_with_members dbContainers 1 "trip" [2, 3, 1] 9).2.groupMembers.filter
        (fun r => r.group_id = 9)).map (fun r => r.user_id) =
      ([2, 3, 1] ++ [1]).dedup ∧
    (([2, 3, 1] ++ [1]).dedup : List Nat).Nodup :=
  (claim7_create_group_all_or_nothing dbContainers 1 9 "trip" [2, 3, 1]).2
    (by decide) (by decide) (by decide)

/-- Claim C8 evaluated on a concrete store (refuted by the code for any
user with at least one event): the 404 case and the zero-events case
behave as claimed — user 2 has no events and gets friend and event counts
with an empty latest-events list, user 4 does not exist and gets 404 —
but for user 1, a member of event 5, the handler constructs an
`EventPreview` without its required `location` field (the profile query
selects no location column), so pydantic raises a ValidationError that the
handler does not catch and the request fails with HTTP 500 instead of
returning the annotated event list. -/
theorem claim8_profile_crashes_when_user_has_events :
    get_user_profile dbContainers 1 = .error .internal ∧
    get_user_profile dbContainers 2 = .ok ⟨2, "bo", 0, 0, []⟩ ∧
    get_user_profile dbContainers 4 = .error .notFound := by
  decide

theorem mem_insertDescBy {key : α → Nat} {a x : α} {l : List α} :
    x ∈ insertDescBy key a l ↔ x = a ∨ x ∈ l := by
  induction l with
  | nil => simp [insertDescBy]
  | cons y t ih =>
    rw [insertDescBy]
    split
    · simp [List.mem_cons]
    · simp only [List.mem_cons, ih]
      tauto

theorem pairwise_insertDescBy {key : α → Nat} (a : α) (l : List α)
    (h : l.Pairwise (fun p q => key q ≤ key p)) :
    (insertDescBy key a l).Pairwise (fun p q => key q ≤ key p) := by
  induction l with
  | nil => simp [insertDescBy]
  | cons y t ih =>
    rcases List.pairwise_cons.mp h with ⟨hy, ht⟩
    rw [insertDescBy]
    split
    · rename_i hle
      rw [List.pairwise_cons]
      refine ⟨?_, h⟩
      intro z hz
      rcases List.mem_cons.mp hz with rfl | hz2
      · exact hle
      · exact le_trans (hy z hz2) hle
    · rename_i hgt
      push_neg at hgt
      rw [List.pairwise_cons]
      refine ⟨?_, ih ht⟩
      intro z hz
      rcases mem_insertDescBy.mp hz with rfl | hz2
      · exact le_of_lt hgt
      · exact hy z hz2

theorem pairwise_sortDescBy (key : α → Nat) (l : List α) :
    (sortDescBy key l).Pairwise (fun p q => key q ≤ key p) := by
  induction l with
  | nil => exact List.Pairwise.nil
  | cons x t ih => exact pairwise_insertDescBy x (sortDescBy key t) ih

theorem mem_sortDescBy {key : α → Nat} {x : α} {l : List α} :
    x ∈ sortDescBy key l ↔ x ∈ l := by
  induction l with
  | nil => exact Iff.rfl
  | cons y t ih =>
    show x ∈ insertDescBy key y (sortDescBy key t) ↔ _
    rw [mem_insertDescBy, ih]
    simp [List.mem_cons]

theorem pairwise_filterMap_of_pairwise {R : α → α → Prop} {S : β → β → Prop}
    (f : α → Option β)
    (hf : ∀ a b x y, R a b → f a = some x → f b = some y → S x y)
    {l : List α} (h : l.Pairwise R) : (l.filterMap f).Pairwise S := by
  induction l with
  | nil => simp
  | cons a t ih =>
    rcases List.pairwise_cons.mp h with ⟨ha, ht⟩
    cases hfa : f a with
    | none => rw [List.filterMap_cons_none hfa]; exact ih ht
    | some x =>
      rw [List.filterMap_cons_some hfa]
      rw [List.pairwise_cons]
      refine ⟨?_, ih ht⟩
      intro y hy
      rcases List.mem_filterMap.mp hy with ⟨b, hb, hfb⟩
      exact hf a b x y (ha b hb) hfa hfb

theorem perm_insertDescBy (key : α → Nat) (a : α) (l : List α) :
    (insertDescBy key a l).Perm (a :: l) := by
  induction l with
  | nil => exact List.Perm.refl _
  | cons y t ih =>
    rw [insertDescBy]
    split
    · exact List.Perm.refl _
    · exact (List.Perm.cons y ih).trans (List.Perm.swap a y t)

theorem perm_sortDescBy (key : α → Nat) (l : List α) :
    (sortDescBy key l).Perm l := by
  induction l with
  | nil => exact List.Perm.refl _
  | cons x t ih =>
    exact (perm_insertDescBy key x (sortDescBy key t)).trans (List.Perm.cons x ih)

theorem length_filterMap_of_isSome (f : α → Option β) (l : List α)
    (h : ∀ a ∈ l, (f a).isSome) : (l.filterMap f).length = l.length := by
  induction l with
  | nil => rfl
  | cons a t ih =>
    rcases Option.isSome_iff_exists.mp (h a (List.mem_cons_self a t)) with ⟨b, hb⟩
    rw [List.filterMap_cons_some hb, List.length_cons, List.length_cons,
      ih (fun x hx => h x (List.mem_cons_of_mem a hx))]

/-- Counterexample to claim C9 as stated: group 99 does not exist in the
concrete store, yet fetching its conversation does not fail with 404 —
the handler performs no existence check and returns 200 with an empty
list. -/
theorem claim9_counterexample_no_404_for_missing_group :
    groupExists dbContainers 99 = false ∧
    get_group_conversation dbContainers 99 = .ok [] := by
  decide

/-- Claim C9 as amended: fetching group messages never fails — for any
group id (existing or not) it returns 200 with the most recent at-most-20
messages of that group ordered newest first: the result is sorted
descending by timestamp, each entry comes from a stored row of the group
joined with its poster, the result together with the dropped remainder is
a permutation of ALL of the group's joined messages, every dropped message
is no newer than every returned one (and nothing is dropped unless 20 are
returned), and when every poster exists (the foreign-key invariant) the
result length is exactly min(number of the group's messages, 20); when the
group has no conversation rows, in particular when the group does not
exist, the result is the empty list. -/
theorem claim9_get_group_conversation_total (db : DB) (gid : Nat) :
    (∃ l, get_group_conversation db gid = .ok l ∧
      l.length ≤ 20 ∧
      l.Pairwise (fun m1 m2 => m2.dateTime ≤ m1.dateTime) ∧
      (∀ m ∈ l, ∃ c ∈ db.conversations, ∃ u2,
        lookupUser db c.user_id = some u2 ∧ c.group_id = gid ∧
        m = ChatMessage.mk c.user_id u2.username c.messageType
          c.messageContent c.dateTime) ∧
      (∃ dropped,
        (l ++ dropped).Perm
          ((db.conversations.filter (fun c => c.group_id = gid)).filterMap
            (fun c => (lookupUser db c.user_id).map (fun u2 =>
              ChatMessage.mk c.user_id u2.username c.messageType
                c.messageContent c.dateTime))) ∧
        (∀ m ∈ l, ∀ j ∈ dropped, j.dateTime ≤ m.dateTime) ∧
        (dropped = [] ∨ l.length = 20)) ∧
      ((∀ c ∈ db.conversations, c.group_id = gid →
          (lookupUser db c.user_id).isSome) →
        l.length =
          min ((db.conversations.filter
            (fun c => c.group_id = gid)).length) 20)) ∧
    ((∀ c ∈ db.conversations, c.group_id ≠ gid) →
      get_group_conversation db gid = .ok []) := by
  have hsorted : (joinedGroupMessages db gid).Pairwise
      (fun m1 m2 => m2.dateTime ≤ m1.dateTime) := by
    apply pairwise_filterMap_of_pairwise
      (R := fun c1 c2 : ConversationRow => c2.dateTime ≤ c1.dateTime)
    · intro a b x y hab hfa hfb
      rcases Option.map_eq_some'.mp hfa with ⟨ua, -, rfl⟩
      rcases Option.map_eq_some'.mp hfb with ⟨ub, -, rfl⟩
      exact hab
    · exact pairwise_sortDescBy _ _
  constructor
  · refine ⟨(joinedGroupMessages db gid).take 20, rfl,
      List.length_take_le _ _,
      List.Pairwise.sublist (List.take_sublist _ _) hsorted, ?_, ?_, ?_⟩
    · intro m hm
      have hm2 := List.mem_of_mem_take hm
      simp only [joinedGroupMessages] at hm2
      rcases List.mem_filterMap.mp hm2 with ⟨c, hc, hfc⟩
      have hc2 := mem_sortDescBy.mp hc
      rcases List.mem_filter.mp hc2 with ⟨hcdb, hcg⟩
      rcases Option.map_eq_some'.mp hfc with ⟨u2, hu2, rfl⟩
      exact ⟨c, hcdb, u2, hu2, by simpa using hcg, rfl⟩
    · refine ⟨(joinedGroupMessages db gid).drop 20, ?_, ?_, ?_⟩
      · rw [List.take_append_drop]
        simp only [joinedGroupMessages]
        exact List.Perm.filterMap _ (perm_sortDescBy _ _)
      · have h2 := hsorted
        rw [← List.take_append_drop 20 (joinedGroupMessages db gid)] at h2
        exact fun m hm j hj => (List.pairwise_append.mp h2).2.2 m hm j hj
      · by_cases hlen : (joinedGroupMessages db gid).length ≤ 20
        · exact Or.inl (List.drop_eq_nil_of_le hlen)
        · right
          rw [List.length_take]
          omega
    · intro hposters
      have hJlen : (joinedGroupMessages db gid).length =
          (db.conversations.filter (fun c => c.group_id = gid)).length := by
        simp only [joinedGroupMessages]
        rw [length_filterMap_of_isSome]
        · exact (perm_sortDescBy _ _).length_eq
        · intro c hc
          have hcmem := mem_sortDescBy.mp hc
          rcases List.mem_filter.mp hcmem with ⟨hcdb, hcg⟩
          have hg : c.group_id = gid := by simpa using hcg
          rcases Option.isSome_iff_exists.mp (hposters c hcdb hg) with ⟨u2, hu2⟩
          rw [hu2]
          rfl
      rw [List.length_take, hJlen]
      exact Nat.min_comm _ _
  · intro hno
    have hfil : db.conversations.filter (fun c => c.group_id = gid) = [] := by
      rw [List.filter_eq_nil_iff]
      intro c hc
      simpa using hno c hc
    simp [get_group_conversation, joinedGroupMessages, hfil, sortDescBy]

/-- Witness for claim C9 (amended): group 7 of the chat store holds three
messages (timestamps 10, 30, 20) and the endpoint returns exactly those
three newest first, so the instantiated theorem's ordering, provenance and
completeness clauses are exercised on a non-empty group; the absent group
99 (no rows) yields ok-empty. -/
theorem claim9_get_group_conversation_total_witness :
    get_group_conversation dbChat 7 =
      .ok [⟨2, "bo", "text", "m2", 30⟩, ⟨1, "ann", "text", "m3", 20⟩,
        ⟨1, "ann", "text", "m1", 10⟩] ∧
    (∃ l, get_group_conversation dbChat 7 = .ok l ∧
      l.length ≤ 20 ∧
      l.Pairwise (fun m1 m2 => m2.dateTime ≤ m1.dateTime) ∧
      (∀ m ∈ l, ∃ c ∈ dbChat.conversations, ∃ u2,
        lookupUser dbChat c.user_id = some u2 ∧ c.group_id = 7 ∧
        m = ChatMessage.mk c.user_id u2.username c.messageType
          c.messageContent c.dateTime) ∧
      (∃ dropped,
        (l ++ dropped).Perm
          ((dbChat.conversations.filter (fun c => c.group_id = 7)).filterMap
            (fun c => (lookupUser dbChat c.user_id).map (fun u2 =>
              ChatMessage.mk c.user_id u2.username c.messageType
                c.messageContent c.dateTime))) ∧
        (∀ m ∈ l, ∀ j ∈ dropped, j.dateTime ≤ m.dateTime) ∧
        (dropped = [] ∨ l.length = 20)) ∧
      ((∀ c ∈ dbChat.conversations, c.group_id = 7 →
          (lookupUser dbChat c.user_id).isSome) →
        l.length =
          min ((dbChat.conversations.filter
            (fun c => c.group_id = 7)).length) 20)) ∧
    get_group_conversation dbChat 99 = .ok [] :=
  ⟨by decide,
   (claim9_get_group_conversation_total dbChat 7).1,
   (claim9_get_group_conversation_total dbChat 99).2 (by decide)⟩

/-- Claim C10: posting a group message performs no membership
authorization — whenever the group and the user exist the message is
appended (and returned enriched with the poster's username), with no
reference to the `groupMembers` relation; the only 404 case is a dangling
group or user reference, which leaves the store unchanged. -/
theorem claim10_post_message_no_membership_check (db : DB) (g w : Nat)
    (mt mc : String) (now : Nat) :
    (groupExists db g = true → userExists db w = true →
      ∃ ur, lookupUser db w = some ur ∧
        send_group_message db g w mt mc now =
          (.ok (ChatMessage.mk w ur.username mt mc now),
            { db with conversations := db.conversations ++
              [⟨g, w, mt, mc, now⟩] })) ∧
    (¬ (groupExists db g = true ∧ userExists db w = true) →
      send_group_message db g w mt mc now = (.error .notFound, db)) := by
  constructor
  · intro hg hu
    have hsome : (db.users.find? fun x => x.user_id = w).isSome := by
      rw [List.find?_isSome]
      simpa [userExists] using hu
    rcases Option.isSome_iff_exists.mp hsome with ⟨ur, hur⟩
    refine ⟨ur, hur, ?_⟩
    simp [send_group_message, hg, hu, lookupUser, hur]
  · intro hbad
    simp only [send_group_message]
    rw [if_pos]
    simpa using hbad

/-- Witness for claim C10: in the concrete store, user 1 exists and group 7
exists but user 1 is not a member of group 7; posting still succeeds and
appends the message, and posting to the absent group 99 yields 404. -/
theorem claim10_post_message_no_membership_check_witness :
    isGroupMember dbContainers 7 1 = false ∧
    (∃ ur, lookupUser dbContainers 1 = some ur ∧
      send_group_message dbContainers 7 1 "text" "hi" 11 =
        (.ok (ChatMessage.mk 1 ur.username "text" "hi" 11),
          { dbContainers with conversations := dbContainers.conversations ++
            [⟨7, 1, "text", "hi", 11⟩] })) ∧
    send_group_message dbContainers 99 1 "text" "hi" 11 =
      (.error .notFound, dbContainers) :=
  ⟨by decide,
   (claim10_post_message_no_membership_check dbContainers 7 1 "text" "hi" 11).1
     (by decide) (by decide),
   (claim10_post_message_no_membership_check dbContainers 99 1 "text" "hi" 11).2
     (by decide)⟩

end Tapp
